import Mathlib

/-!
Verification of the connector base contract of the simple-data-pipe SDK
(`src/lib/connectors/connector.js`).

The embedding models the JavaScript fragment the contract uses:

* `JsValue` — the dynamic values that flow through the API (null, undefined,
  booleans, numbers, strings, arrays, and plain object literals).
* `Obj` — a JavaScript object as an association list of string keys, with
  JS property semantics: `hasOwnProperty`, property read, and property
  assignment (overwrite in place, append new keys in insertion order).
* `Heap` — mutable object identity.  The caller-supplied `options` object is
  adopted by reference: the constructor and `setOption` write into the heap
  cell holding it, so aliasing through the caller is observable.
* `Connector` — the per-instance closure state (`id`, `label`, `steps`,
  the reference to the `options` bag, and the externally assigned `path`
  property read by `toJSON`).
* Callback-style default methods are continuation passing: a method taking a
  `callback` parameter is polymorphic in the callback result, and a
  recording continuation (`recordCall`) observes the exact sequence of
  invocations and their argument lists.
-/

/-- Dynamic JavaScript values used by the connector contract. -/
inductive JsValue : Type where
  | undefined : JsValue
  | null : JsValue
  | bool : Bool → JsValue
  | num : Int → JsValue
  | str : String → JsValue
  | arr : List JsValue → JsValue
  | obj : List (String × JsValue) → JsValue
deriving Repr

/-- JavaScript truthiness (`ToBoolean`) for the values in the model. -/
def JsValue.truthy : JsValue → Bool
  | .undefined => false
  | .null => false
  | .bool b => b
  | .num n => n != 0
  | .str s => s != ""
  | .arr _ => true
  | .obj _ => true

/-- A JavaScript object: ordered own properties, string keys. -/
abbrev Obj : Type := List (String × JsValue)

/-- `o.hasOwnProperty(k)`. -/
def Obj.hasOwnProperty (o : Obj) (k : String) : Bool :=
  List.any o (fun p => p.1 == k)

/-- Property read `o[k]`; reading an absent property gives `undefined`. -/
def Obj.get (o : Obj) (k : String) : JsValue :=
  match List.find? (fun p => p.1 == k) o with
  | some p => p.2
  | none => JsValue.undefined

/-- Property assignment `o[k] = v`: overwrite the value of an existing key
    in place (a JS object holds each key at most once), otherwise append the
    new key (JS insertion order). -/
def Obj.set : Obj → String → JsValue → Obj
  | [], k, v => [(k, v)]
  | p :: rest, k, v => if p.1 == k then (k, v) :: rest else p :: Obj.set rest k v

/-- The heap: object identities are indices into the list of live objects. -/
structure Heap : Type where
  objs : List Obj
deriving Inhabited

/-- Dereference `r`; a dangling reference reads as the empty object
    (never reached for references produced by the model). -/
def Heap.get (h : Heap) (r : Nat) : Obj :=
  List.getD h.objs r ([] : Obj)

/-- Overwrite the object stored at reference `r`. -/
def Heap.write (h : Heap) (r : Nat) (o : Obj) : Heap :=
  ⟨List.set h.objs r o⟩

/-- Allocate a fresh object, returning the new heap and its reference. -/
def Heap.alloc (h : Heap) (o : Obj) : Heap × Nat :=
  (⟨h.objs ++ [o]⟩, h.objs.length)

/-- A reference is valid when it indexes a live object. -/
def Heap.valid (h : Heap) (r : Nat) : Prop :=
  r < h.objs.length

instance (h : Heap) (r : Nat) : Decidable (h.valid r) :=
  inferInstanceAs (Decidable (r < h.objs.length))

/-- The default option bag of `connector`:
    `{ useOAuth: true, extraRequiredFields: [] }` (in source order). -/
def connectorDefaults : List (String × JsValue) :=
  [("useOAuth", JsValue.bool true),
   ("extraRequiredFields", JsValue.arr [])]

/-- The body of the `_.forIn(defaults, ...)` loop of the constructor:
    `if ( !options.hasOwnProperty(key) ){ options[key] = value; }`. -/
def mergeDefault (options : Obj) (kv : String × JsValue) : Obj :=
  if options.hasOwnProperty kv.1 then options else Obj.set options kv.1 kv.2

/-- The `_.forIn(defaults, ...)` loop of the constructor: for each default
    key absent from `options`, assign the default value into `options`
    (defaults are visited in their insertion order). -/
def applyDefaults (o : Obj) : Obj :=
  List.foldl mergeDefault o connectorDefaults

/-- The per-instance closure state of `connector`.  `path` is the `this.path`
    property assigned externally and read by `toJSON`; it is `undefined`
    until such an assignment happens. -/
structure Connector : Type where
  id : JsValue
  label : JsValue
  steps : List JsValue
  optionsRef : Nat
  path : JsValue
deriving Repr

/-- The constructor `connector(options)`.  The argument is an object
    reference (`some r`) or absent (`none`, i.e. `undefined`); per
    `options = options || {}` an absent argument allocates a fresh empty
    object, a (truthy) object argument is adopted as-is.  The defaults are
    then merged into that object in place on the heap. -/
def connector (h : Heap) (optionsArg : Option Nat) : Heap × Connector :=
  let hr : Heap × Nat :=
    match optionsArg with
    | some r => (h, r)
    | none => h.alloc ([] : List (String × JsValue))
  let h1 := hr.1
  let r := hr.2
  (h1.write r (applyDefaults (h1.get r)),
   { id := JsValue.null
     label := JsValue.null
     steps := []
     optionsRef := r
     path := JsValue.undefined })

/-- `getId`. -/
def Connector.getId (c : Connector) : JsValue := c.id

/-- `setId`. -/
def Connector.setId (c : Connector) (v : JsValue) : Connector := { c with id := v }

/-- `getLabel`. -/
def Connector.getLabel (c : Connector) : JsValue := c.label

/-- `setLabel`. -/
def Connector.setLabel (c : Connector) (v : JsValue) : Connector := { c with label := v }

/-- `setOption(key, value)`: `options[key] = value`, a heap write into the
    adopted options object. -/
def Connector.setOption (c : Connector) (h : Heap) (k : String) (v : JsValue) : Heap :=
  h.write c.optionsRef (Obj.set (h.get c.optionsRef) k v)

/-- `getOption(key)`: `options.hasOwnProperty(key) ? options[key] : null`. -/
def Connector.getOption (c : Connector) (h : Heap) (k : String) : JsValue :=
  let o := h.get c.optionsRef
  if o.hasOwnProperty k then o.get k else JsValue.null

/-- `setSteps(_steps)`. -/
def Connector.setSteps (c : Connector) (s : List JsValue) : Connector := { c with steps := s }

/-- `getSteps()`. -/
def Connector.getSteps (c : Connector) : List JsValue := c.steps

/-- Default `runStarted(readyCallback)`: `return readyCallback();`.
    The continuation receives the list of arguments of the invocation. -/
def Connector.runStarted {α : Type} (_c : Connector)
    (readyCallback : List JsValue → α) : α :=
  readyCallback []

/-- Default `runFinished()`: a no-op. -/
def Connector.runFinished (_c : Connector) : Unit := ()

/-- The fixed unauthorized error object
    `{ message: 'Not Authorized', code: 401 }`. -/
def notAuthorizedError : JsValue :=
  JsValue.obj [("message", JsValue.str "Not Authorized"), ("code", JsValue.num 401)]

/-- Default `authCallback(oAuthCode, pipeId, callback)`:
    `return callback({ message: 'Not Authorized', code: 401 });`. -/
def Connector.authCallback {α : Type} (_c : Connector)
    (_oAuthCode _pipeId : JsValue) (callback : List JsValue → α) : α :=
  callback [notAuthorizedError]

/-- Default `connectDataSource(req, res, pipeId, url, callback)`:
    `return callback({ message: 'Not Authorized', code: 401 });`. -/
def Connector.connectDataSource {α : Type} (_c : Connector)
    (_req _res _pipeId _url : JsValue) (callback : List JsValue → α) : α :=
  callback [notAuthorizedError]

/-- Default `getPassportStrategy(pipe)`: `return null;`. -/
def Connector.getPassportStrategy (_c : Connector) (_pipe : JsValue) : JsValue :=
  JsValue.null

/-- Default `getPassportAuthorizationParams()`: `return {};`. -/
def Connector.getPassportAuthorizationParams (_c : Connector) : JsValue :=
  JsValue.obj []

/-- Default `passportAuthCallbackPostProcessing(info, pipe, callback)`:
    `return callback();`. -/
def Connector.passportAuthCallbackPostProcessing {α : Type} (_c : Connector)
    (_info _pipe : JsValue) (callback : List JsValue → α) : α :=
  callback []

/-- The plain record produced by `toJSON`.  Its `options` field is the
    reference to the live options object (the source returns the object
    itself, not a copy). -/
structure ConnectorJSON : Type where
  id : JsValue
  label : JsValue
  steps : List JsValue
  options : Nat
  path : JsValue
deriving Repr

/-- `toJSON()`: `{ id: this.getId(), label: this.getLabel(),
    steps: this.getSteps(), options: options, path: this.path || null }`. -/
def Connector.toJSON (c : Connector) : ConnectorJSON :=
  { id := c.getId
    label := c.getLabel
    steps := c.getSteps
    options := c.optionsRef
    path := if c.path.truthy then c.path else JsValue.null }

/-- A trace of callback invocations: the argument list of each call,
    in call order. -/
abbrev CallLog : Type := List (List JsValue)

/-- The recording continuation: instantiating a callback-taking method with
    `recordCall` and running the result on the empty log yields the exact
    sequence of callback invocations the method performs. -/
def recordCall (args : List JsValue) : CallLog → CallLog :=
  fun t => t ++ [args]

/-! ### Laws of the object model -/

theorem Obj.hasOwnProperty_eq_isSome (o : Obj) (k : String) :
    o.hasOwnProperty k = (List.find? (fun p => p.1 == k) o).isSome := by
  induction o with
  | nil => rfl
  | cons q rest ih =>
    by_cases hq : (q.1 == k) = true
    · simp [Obj.hasOwnProperty, List.any_cons, List.find?_cons, hq]
    · simp only [Bool.not_eq_true] at hq
      simp [Obj.hasOwnProperty, List.any_cons, List.find?_cons, hq] at ih ⊢
      exact ih

theorem Obj.find?_set_self (o : Obj) (k : String) (v : JsValue) :
    List.find? (fun p => p.1 == k) (Obj.set o k v) = some (k, v) := by
  induction o with
  | nil => simp [Obj.set, List.find?_cons]
  | cons q rest ih =>
    by_cases hq : q.1 = k
    · simp [Obj.set, hq, List.find?_cons]
    · simp [Obj.set, hq, List.find?_cons, ih]

theorem Obj.get_set_self (o : Obj) (k : String) (v : JsValue) :
    Obj.get (Obj.set o k v) k = v := by
  unfold Obj.get
  rw [Obj.find?_set_self]

theorem Obj.hasOwnProperty_set_self (o : Obj) (k : String) (v : JsValue) :
    Obj.hasOwnProperty (Obj.set o k v) k = true := by
  rw [Obj.hasOwnProperty_eq_isSome, Obj.find?_set_self]
  rfl

theorem Obj.find?_set_ne (o : Obj) (k k' : String) (v : JsValue) (hne : k' ≠ k) :
    List.find? (fun p => p.1 == k') (Obj.set o k v)
      = List.find? (fun p => p.1 == k') o := by
  have hkk : ¬(k = k') := fun hkk => hne hkk.symm
  induction o with
  | nil => simp [Obj.set, List.find?_cons, hkk]
  | cons q rest ih =>
    by_cases hq : q.1 = k
    · have h2 : ¬(q.1 = k') := fun h => hne (hq ▸ h).symm
      simp [Obj.set, hq, List.find?_cons, hkk, h2]
    · by_cases hq' : q.1 = k'
      · simp [Obj.set, hq, List.find?_cons, hq', hne]
      · simp [Obj.set, hq, List.find?_cons, hq', ih]

theorem Obj.get_set_ne (o : Obj) (k k' : String) (v : JsValue) (hne : k' ≠ k) :
    Obj.get (Obj.set o k v) k' = Obj.get o k' := by
  unfold Obj.get
  rw [Obj.find?_set_ne o k k' v hne]

theorem Obj.hasOwnProperty_set_ne (o : Obj) (k k' : String) (v : JsValue) (hne : k' ≠ k) :
    Obj.hasOwnProperty (Obj.set o k v) k' = Obj.hasOwnProperty o k' := by
  rw [Obj.hasOwnProperty_eq_isSome, Obj.hasOwnProperty_eq_isSome,
    Obj.find?_set_ne o k k' v hne]

/-! ### Laws of the heap -/

theorem Heap.get_write_self (h : Heap) (r : Nat) (o : Obj) (hr : h.valid r) :
    (h.write r o).get r = o := by
  unfold Heap.valid at hr
  unfold Heap.get Heap.write
  rw [List.getD_eq_getElem _ _ (by simpa using hr), List.getElem_set_self]

theorem Heap.length_write (h : Heap) (r : Nat) (o : Obj) :
    (h.write r o).objs.length = h.objs.length := by
  simp [Heap.write]

theorem Heap.get_alloc_self (h : Heap) (o : Obj) :
    (h.alloc o).1.get (h.alloc o).2 = o := by
  unfold Heap.alloc Heap.get
  rw [List.getD_eq_getElem _ _ (by simp)]
  exact List.getElem_concat_length _ _ _ rfl _

/-! ### Laws of the default merge -/

theorem mergeDefault_hasOwn_self (o : Obj) (kv : String × JsValue) :
    Obj.hasOwnProperty (mergeDefault o kv) kv.1 = true := by
  unfold mergeDefault
  by_cases h : Obj.hasOwnProperty o kv.1 = true
  · simp [h]
  · simp only [Bool.not_eq_true] at h
    simp [h, Obj.hasOwnProperty_set_self]

theorem mergeDefault_of_hasOwn (o : Obj) (kv : String × JsValue)
    (h : Obj.hasOwnProperty o kv.1 = true) :
    mergeDefault o kv = o := by
  unfold mergeDefault
  simp [h]

theorem mergeDefault_get_absent (o : Obj) (kv : String × JsValue)
    (h : Obj.hasOwnProperty o kv.1 = false) :
    Obj.get (mergeDefault o kv) kv.1 = kv.2 := by
  unfold mergeDefault
  simp [h, Obj.get_set_self]

theorem mergeDefault_get_ne (o : Obj) (kv : String × JsValue) (k : String)
    (hne : k ≠ kv.1) :
    Obj.get (mergeDefault o kv) k = Obj.get o k := by
  unfold mergeDefault
  by_cases h : Obj.hasOwnProperty o kv.1 = true
  · simp [h]
  · simp only [Bool.not_eq_true] at h
    simp [h, Obj.get_set_ne o kv.1 k kv.2 hne]

theorem mergeDefault_hasOwn_ne (o : Obj) (kv : String × JsValue) (k : String)
    (hne : k ≠ kv.1) :
    Obj.hasOwnProperty (mergeDefault o kv) k = Obj.hasOwnProperty o k := by
  unfold mergeDefault
  by_cases h : Obj.hasOwnProperty o kv.1 = true
  · simp [h]
  · simp only [Bool.not_eq_true] at h
    simp [h, Obj.hasOwnProperty_set_ne o kv.1 k kv.2 hne]

theorem mergeDefault_hasOwn_mono (o : Obj) (kv : String × JsValue) (k : String)
    (h : Obj.hasOwnProperty o k = true) :
    Obj.hasOwnProperty (mergeDefault o kv) k = true := by
  by_cases hk : k = kv.1
  · subst hk
    exact mergeDefault_hasOwn_self o kv
  · rw [mergeDefault_hasOwn_ne o kv k hk]
    exact h

/-! ### Laws of `applyDefaults` -/

theorem applyDefaults_eq (o : Obj) :
    applyDefaults o =
      mergeDefault (mergeDefault o ("useOAuth", JsValue.bool true))
        ("extraRequiredFields", JsValue.arr []) := rfl

theorem useOAuth_ne_extra : ("useOAuth" : String) ≠ "extraRequiredFields" := by
  decide

theorem applyDefaults_hasOwn_useOAuth (o : Obj) :
    Obj.hasOwnProperty (applyDefaults o) "useOAuth" = true := by
  rw [applyDefaults_eq]
  exact mergeDefault_hasOwn_mono _ _ _ (mergeDefault_hasOwn_self o _)

theorem applyDefaults_hasOwn_extra (o : Obj) :
    Obj.hasOwnProperty (applyDefaults o) "extraRequiredFields" = true := by
  rw [applyDefaults_eq]
  exact mergeDefault_hasOwn_self _ _

theorem applyDefaults_get_useOAuth_absent (o : Obj)
    (h : Obj.hasOwnProperty o "useOAuth" = false) :
    Obj.get (applyDefaults o) "useOAuth" = JsValue.bool true := by
  rw [applyDefaults_eq,
    mergeDefault_get_ne _ _ _ useOAuth_ne_extra,
    mergeDefault_get_absent o _ h]

theorem applyDefaults_get_extra_absent (o : Obj)
    (h : Obj.hasOwnProperty o "extraRequiredFields" = false) :
    Obj.get (applyDefaults o) "extraRequiredFields" = JsValue.arr [] := by
  rw [applyDefaults_eq]
  apply mergeDefault_get_absent
  rw [mergeDefault_hasOwn_ne _ _ _ useOAuth_ne_extra.symm]
  exact h

theorem applyDefaults_get_preserved (o : Obj) (k : String)
    (h : Obj.hasOwnProperty o k = true) :
    Obj.get (applyDefaults o) k = Obj.get o k := by
  rw [applyDefaults_eq]
  by_cases hk : k = "extraRequiredFields"
  · subst hk
    rw [mergeDefault_of_hasOwn]
    · rw [mergeDefault_get_ne _ _ _ useOAuth_ne_extra.symm]
    · rw [mergeDefault_hasOwn_ne _ _ _ useOAuth_ne_extra.symm]
      exact h
  · rw [mergeDefault_get_ne _ _ _ hk]
    by_cases hk' : k = "useOAuth"
    · subst hk'
      rw [mergeDefault_of_hasOwn o _ h]
    · rw [mergeDefault_get_ne _ _ _ hk']

theorem applyDefaults_hasOwn_preserved (o : Obj) (k : String)
    (h : Obj.hasOwnProperty o k = true) :
    Obj.hasOwnProperty (applyDefaults o) k = true := by
  rw [applyDefaults_eq]
  exact mergeDefault_hasOwn_mono _ _ _ (mergeDefault_hasOwn_mono _ _ _ h)

/-! ### Reductions of the constructor -/

theorem connector_some_heap (h : Heap) (r : Nat) :
    (connector h (some r)).1 = h.write r (applyDefaults (h.get r)) := rfl

theorem connector_some_ref (h : Heap) (r : Nat) :
    (connector h (some r)).2.optionsRef = r := rfl

theorem connector_none_heap (h : Heap) :
    (connector h none).1
      = (h.alloc ([] : Obj)).1.write h.objs.length
          (applyDefaults ((h.alloc ([] : Obj)).1.get h.objs.length)) := rfl

theorem getOption_connector_some (h : Heap) (r : Nat) (hr : h.valid r) (k : String) :
    Connector.getOption (connector h (some r)).2 (connector h (some r)).1 k
      = (if Obj.hasOwnProperty (applyDefaults (h.get r)) k
         then Obj.get (applyDefaults (h.get r)) k
         else JsValue.null) := by
  simp only [Connector.getOption, connector_some_heap, connector_some_ref]
  rw [Heap.get_write_self h r _ hr]

/-! ### Concrete fixtures -/

/-- A heap holding one empty options object at reference 0. -/
def emptyObjHeap : Heap := ⟨[[]]⟩

/-- A heap holding `{ extraRequiredFields: ['token'] }` at reference 0. -/
def scenarioHeap : Heap :=
  ⟨[[("extraRequiredFields", JsValue.arr [JsValue.str "token"])]]⟩

/-- A heap holding `{ useOAuth: false }` at reference 0. -/
def overrideHeap : Heap := ⟨[[("useOAuth", JsValue.bool false)]]⟩

/-! ### Claims -/

/-- C1: constructing with an options object lacking `useOAuth` yields
    `getOption('useOAuth') === true`; lacking `extraRequiredFields` it
    defaults to the empty sequence; and the concrete scenario
    `{ extraRequiredFields: ['token'] }` yields
    `getOption('extraRequiredFields') === ['token']` and
    `getOption('useOAuth') === true`. -/
theorem connector_defaults_absent_keys :
    (∀ (h : Heap) (r : Nat), h.valid r →
      Obj.hasOwnProperty (h.get r) "useOAuth" = false →
      Connector.getOption (connector h (some r)).2 (connector h (some r)).1 "useOAuth"
        = JsValue.bool true)
    ∧ (∀ (h : Heap) (r : Nat), h.valid r →
      Obj.hasOwnProperty (h.get r) "extraRequiredFields" = false →
      Connector.getOption (connector h (some r)).2 (connector h (some r)).1
          "extraRequiredFields"
        = JsValue.arr [])
    ∧ Connector.getOption (connector scenarioHeap (some 0)).2
        (connector scenarioHeap (some 0)).1 "extraRequiredFields"
        = JsValue.arr [JsValue.str "token"]
    ∧ Connector.getOption (connector scenarioHeap (some 0)).2
        (connector scenarioHeap (some 0)).1 "useOAuth"
        = JsValue.bool true := by
  refine ⟨?_, ?_, rfl, rfl⟩
  · intro h r hr habs
    rw [getOption_connector_some h r hr]
    simp only [applyDefaults_hasOwn_useOAuth, if_true]
    exact applyDefaults_get_useOAuth_absent (h.get r) habs
  · intro h r hr habs
    rw [getOption_connector_some h r hr]
    simp only [applyDefaults_hasOwn_extra, if_true]
    exact applyDefaults_get_extra_absent (h.get r) habs

/-- Witness for C1 at the one-empty-object heap. -/
theorem connector_defaults_absent_keys_witness :
    Connector.getOption (connector emptyObjHeap (some 0)).2
        (connector emptyObjHeap (some 0)).1 "useOAuth"
      = JsValue.bool true
    ∧ Connector.getOption (connector emptyObjHeap (some 0)).2
        (connector emptyObjHeap (some 0)).1 "extraRequiredFields"
      = JsValue.arr [] :=
  ⟨connector_defaults_absent_keys.1 emptyObjHeap 0 (by decide) rfl,
   connector_defaults_absent_keys.2.1 emptyObjHeap 0 (by decide) rfl⟩

/-- C2: a caller-supplied `useOAuth: false` survives construction
    (`getOption('useOAuth') === false`), and every key of the default set is
    present in `options` after construction. -/
theorem connector_preserves_caller_override :
    ∀ (h : Heap) (r : Nat), h.valid r →
      ((Obj.hasOwnProperty (h.get r) "useOAuth" = true
        ∧ Obj.get (h.get r) "useOAuth" = JsValue.bool false) →
        Connector.getOption (connector h (some r)).2 (connector h (some r)).1 "useOAuth"
          = JsValue.bool false)
      ∧ (∀ kv ∈ connectorDefaults,
          Obj.hasOwnProperty (Heap.get (connector h (some r)).1 r) kv.1 = true) := by
  intro h r hr
  constructor
  · rintro ⟨hown, hval⟩
    rw [getOption_connector_some h r hr]
    simp only [applyDefaults_hasOwn_preserved _ _ hown, if_true]
    rw [applyDefaults_get_preserved _ _ hown, hval]
  · intro kv hkv
    rw [connector_some_heap, Heap.get_write_self h r _ hr]
    simp only [connectorDefaults, List.mem_cons, List.not_mem_nil, or_false] at hkv
    rcases hkv with rfl | rfl
    · exact applyDefaults_hasOwn_useOAuth _
    · exact applyDefaults_hasOwn_extra _

/-- Witness for C2 at the heap holding `{ useOAuth: false }`. -/
theorem connector_preserves_caller_override_witness :
    Connector.getOption (connector overrideHeap (some 0)).2
        (connector overrideHeap (some 0)).1 "useOAuth"
      = JsValue.bool false
    ∧ Obj.hasOwnProperty (Heap.get (connector overrideHeap (some 0)).1 0)
        "extraRequiredFields" = true :=
  ⟨(connector_preserves_caller_override overrideHeap 0 (by decide)).1 ⟨rfl, rfl⟩,
   (connector_preserves_caller_override overrideHeap 0 (by decide)).2
     ("extraRequiredFields", JsValue.arr []) (by simp [connectorDefaults])⟩

/-- C3: the default `authCallback` and `connectDataSource` invoke their
    callback exactly once (the recorded trace has a single entry), passing
    the single argument `{ message: 'Not Authorized', code: 401 }` and no
    success value. -/
theorem defaults_invoke_callback_unauthorized :
    ∀ (c : Connector) (code pid req res url : JsValue),
      Connector.authCallback c code pid recordCall [] = [[notAuthorizedError]]
      ∧ Connector.connectDataSource c req res pid url recordCall []
          = [[notAuthorizedError]] :=
  fun _ _ _ _ _ _ => ⟨rfl, rfl⟩

/-- C4: the default `runStarted(cb)` invokes `cb` exactly once (the recorded
    trace is a single zero-argument call), synchronously: for any
    continuation its value is returned directly before `runStarted`
    returns. -/
theorem runStarted_invokes_callback_once :
    ∀ (c : Connector),
      Connector.runStarted c recordCall [] = [[]]
      ∧ (∀ (α : Type) (cb : List JsValue → α), Connector.runStarted c cb = cb []) :=
  fun _ => ⟨rfl, fun _ _ => rfl⟩

/-- C5: `getOption` on a key absent from the option bag returns null (the
    embedding is total, so no exception path exists). -/
theorem getOption_absent_returns_null :
    ∀ (h : Heap) (c : Connector) (k : String),
      Obj.hasOwnProperty (h.get c.optionsRef) k = false →
      Connector.getOption c h k = JsValue.null := by
  intro h c k habs
  unfold Connector.getOption
  simp [habs]

/-- Witness for C5: an unknown key on a freshly constructed connector. -/
theorem getOption_absent_returns_null_witness :
    Connector.getOption (connector emptyObjHeap (some 0)).2
      (connector emptyObjHeap (some 0)).1 "missing" = JsValue.null :=
  getOption_absent_returns_null (connector emptyObjHeap (some 0)).1
    (connector emptyObjHeap (some 0)).2 "missing" rfl

/-- C6: `setOption(k, v)` followed by `getOption(k)` returns exactly `v`,
    whatever the prior contents of the option bag. -/
theorem setOption_getOption_roundtrip :
    ∀ (h : Heap) (c : Connector) (k : String) (v : JsValue),
      h.valid c.optionsRef →
      Connector.getOption c (Connector.setOption c h k v) k = v := by
  intro h c k v hv
  unfold Connector.getOption Connector.setOption
  rw [Heap.get_write_self h c.optionsRef _ hv]
  simp [Obj.hasOwnProperty_set_self, Obj.get_set_self]

/-- Witness for C6 on a freshly constructed connector. -/
theorem setOption_getOption_roundtrip_witness :
    Connector.getOption (connector emptyObjHeap (some 0)).2
      (Connector.setOption (connector emptyObjHeap (some 0)).2
        (connector emptyObjHeap (some 0)).1 "token" (JsValue.str "x"))
      "token" = JsValue.str "x" :=
  setOption_getOption_roundtrip (connector emptyObjHeap (some 0)).1
    (connector emptyObjHeap (some 0)).2 "token" (JsValue.str "x") (by decide)

/-- C7: `setSteps(S)` followed by `getSteps()` returns `S` unchanged, for
    every sequence of step references. -/
theorem setSteps_getSteps_roundtrip :
    ∀ (c : Connector) (s : List JsValue),
      Connector.getSteps (Connector.setSteps c s) = s :=
  fun _ _ => rfl

/-- C9: the default `getPassportStrategy` returns null, the default
    `getPassportAuthorizationParams` returns an empty mapping, and the
    default `passportAuthCallbackPostProcessing` invokes its callback
    exactly once with no arguments. -/
theorem passport_layer_defaults :
    ∀ (c : Connector) (pipe info : JsValue),
      Connector.getPassportStrategy c pipe = JsValue.null
      ∧ Connector.getPassportAuthorizationParams c = JsValue.obj []
      ∧ Connector.passportAuthCallbackPostProcessing c info pipe recordCall []
          = [[]] :=
  fun _ _ _ => ⟨rfl, rfl, rfl⟩

/-- A connector whose `path` property was externally set to the falsy value
    `''` (the empty string): the property is present but not truthy. -/
def pathFalsyConnector : Connector :=
  { id := JsValue.null, label := JsValue.null, steps := [],
    optionsRef := 0, path := JsValue.str "" }

/-- A connector whose `path` property was externally set to the truthy
    string `'/a'`. -/
def pathTruthyConnector : Connector :=
  { id := JsValue.null, label := JsValue.null, steps := [],
    optionsRef := 0, path := JsValue.str "/a" }

/-- C8 counterexample: `toJSON` does not read the externally-set `path`
    attribute as-is.  With `path` present and equal to the falsy string
    `''`, the source computes `this.path || null`, so the serialized `path`
    field is null, not the stored value. -/
theorem toJSON_path_not_read_as_is :
    pathFalsyConnector.path ≠ JsValue.undefined
    ∧ (Connector.toJSON pathFalsyConnector).path = JsValue.null
    ∧ (Connector.toJSON pathFalsyConnector).path ≠ pathFalsyConnector.path := by
  refine ⟨?_, rfl, ?_⟩
  · simp [pathFalsyConnector]
  · simp [pathFalsyConnector, Connector.toJSON, JsValue.truthy]

/-- C8 (amended): `toJSON()` returns `{ id, label, steps, options, path }`
    whose `id`, `label`, `steps` and `options` fields equal the accessor
    values and the current option bag at call time, and whose `path` field
    is the externally-set `path` attribute if that value is truthy, else
    null. -/
theorem toJSON_is_current_snapshot :
    ∀ (hp : Heap) (c : Connector),
      (Connector.toJSON c).id = Connector.getId c
      ∧ (Connector.toJSON c).label = Connector.getLabel c
      ∧ (Connector.toJSON c).steps = Connector.getSteps c
      ∧ Heap.get hp (Connector.toJSON c).options = Heap.get hp c.optionsRef
      ∧ (JsValue.truthy c.path = true → (Connector.toJSON c).path = c.path)
      ∧ (JsValue.truthy c.path = false → (Connector.toJSON c).path = JsValue.null) := by
  intro hp c
  refine ⟨rfl, rfl, rfl, rfl, ?_, ?_⟩
  · intro ht
    simp [Connector.toJSON, ht]
  · intro hf
    simp [Connector.toJSON, hf]

/-- Witness for the amended C8: both truthiness branches at concrete
    connectors. -/
theorem toJSON_is_current_snapshot_witness :
    (JsValue.truthy pathTruthyConnector.path = true
      ∧ (Connector.toJSON pathTruthyConnector).path = pathTruthyConnector.path)
    ∧ (JsValue.truthy pathFalsyConnector.path = false
      ∧ (Connector.toJSON pathFalsyConnector).path = JsValue.null) :=
  ⟨⟨rfl, (toJSON_is_current_snapshot ⟨[]⟩ pathTruthyConnector).2.2.2.2.1 rfl⟩,
   ⟨rfl, (toJSON_is_current_snapshot ⟨[]⟩ pathFalsyConnector).2.2.2.2.2 rfl⟩⟩

/-- C10: the constructor adopts and mutates the caller-supplied options
    object in place: the instance's bag is the very reference passed in, no
    new object is allocated, absent default keys are written into that
    object, and every later `setOption` writes into it; only a call with no
    argument allocates a fresh bag (which then carries the two defaults). -/
theorem connector_adopts_and_mutates_in_place :
    (∀ (h : Heap) (r : Nat), h.valid r →
      (connector h (some r)).2.optionsRef = r
      ∧ (connector h (some r)).1.objs.length = h.objs.length
      ∧ (Obj.hasOwnProperty (h.get r) "useOAuth" = false →
          Obj.get (Heap.get (connector h (some r)).1 r) "useOAuth" = JsValue.bool true)
      ∧ (Obj.hasOwnProperty (h.get r) "extraRequiredFields" = false →
          Obj.get (Heap.get (connector h (some r)).1 r) "extraRequiredFields"
            = JsValue.arr []))
    ∧ (∀ (h : Heap) (c : Connector) (k : String) (v : JsValue),
        h.valid c.optionsRef →
        Obj.get (Heap.get (Connector.setOption c h k v) c.optionsRef) k = v)
    ∧ (∀ (h : Heap),
        (connector h none).2.optionsRef = h.objs.length
        ∧ (connector h none).1.objs.length = h.objs.length + 1
        ∧ Heap.get (connector h none).1 h.objs.length
            = [("useOAuth", JsValue.bool true),
               ("extraRequiredFields", JsValue.arr [])]) := by
  refine ⟨?_, ?_, ?_⟩
  · intro h r hr
    refine ⟨rfl, ?_, ?_, ?_⟩
    · rw [connector_some_heap]
      exact Heap.length_write h r _
    · intro habs
      rw [connector_some_heap, Heap.get_write_self h r _ hr]
      exact applyDefaults_get_useOAuth_absent _ habs
    · intro habs
      rw [connector_some_heap, Heap.get_write_self h r _ hr]
      exact applyDefaults_get_extra_absent _ habs
  · intro h c k v hv
    unfold Connector.setOption
    rw [Heap.get_write_self h c.optionsRef _ hv]
    exact Obj.get_set_self _ k v
  · intro h
    have hv : (h.alloc ([] : Obj)).1.valid h.objs.length := by
      simp [Heap.valid, Heap.alloc]
    have hget : (h.alloc ([] : Obj)).1.get h.objs.length = ([] : Obj) :=
      Heap.get_alloc_self h ([] : Obj)
    refine ⟨rfl, ?_, ?_⟩
    · rw [connector_none_heap, Heap.length_write]
      simp [Heap.alloc]
    · rw [connector_none_heap, Heap.get_write_self _ _ _ hv, hget]
      rfl

/-- Witness for C10 at the one-empty-object heap and the empty heap. -/
theorem connector_adopts_and_mutates_in_place_witness :
    ((connector emptyObjHeap (some 0)).2.optionsRef = 0
      ∧ Obj.get (Heap.get (connector emptyObjHeap (some 0)).1 0) "useOAuth"
          = JsValue.bool true)
    ∧ Obj.get
        (Heap.get
          (Connector.setOption (connector emptyObjHeap (some 0)).2
            (connector emptyObjHeap (some 0)).1 "k" (JsValue.num 7))
          ((connector emptyObjHeap (some 0)).2.optionsRef))
        "k" = JsValue.num 7
    ∧ (connector (⟨[]⟩ : Heap) none).2.optionsRef = 0 :=
  ⟨⟨(connector_adopts_and_mutates_in_place.1 emptyObjHeap 0 (by decide)).1,
    (connector_adopts_and_mutates_in_place.1 emptyObjHeap 0 (by decide)).2.2.1 rfl⟩,
   connector_adopts_and_mutates_in_place.2.1 (connector emptyObjHeap (some 0)).1
     (connector emptyObjHeap (some 0)).2 "k" (JsValue.num 7) (by decide),
   (connector_adopts_and_mutates_in_place.2.2 (⟨[]⟩ : Heap)).1⟩
